import Mathlib

/-!
Shallow embedding of the salt-check test harness (salt_check.py) and proofs
about its validation, assertion-evaluation, type-coercion, test-file merging
and per-state entry-point logic.

Python's dynamically-typed values are embedded as the inductive `PyVal`
(None, bool, int, str, list — the value universe the harness actually
manipulates).  Fallible Python code (code that can raise) is embedded with
`Except String`; the error string models the uncaught Python exception.
Collaborator boundaries (the salt Caller, sys.list_modules /
sys.list_functions, the file system and the YAML parser) are parameters:
functions and data supplied from outside, exactly as the source receives
them through `self.salt_lc` and `os`/`yaml`.
-/

namespace SaltCheckSpec

/-- Embedding of the Python values handled by salt_check: None, booleans,
integers, strings and lists. -/
inductive PyVal : Type
  | none
  | bool (b : Bool)
  | int (n : Int)
  | str (s : String)
  | list (xs : List PyVal)
deriving Repr

/-- Runtime type tags, embedding Python's `type(x)` for the `PyVal` universe. -/
inductive PyType : Type
  | noneT
  | boolT
  | intT
  | strT
  | listT
deriving Repr, DecidableEq

/-- Python `type(v)`. -/
def pyType : PyVal → PyType
  | .none => .noneT
  | .bool _ => .boolT
  | .int _ => .intT
  | .str _ => .strT
  | .list _ => .listT

/-- Python truthiness (`if v:`): None, False, 0, the empty string and the
empty list are falsy, everything else is truthy. -/
def pyTruthy : PyVal → Bool
  | .none => false
  | .bool b => b
  | .int n => n != 0
  | .str s => s != ""
  | .list xs => !xs.isEmpty

mutual

/-- Python `==` on the embedded universe.  Booleans compare equal to the
integers 0/1 (Python bools are ints); values of otherwise different types
compare unequal without raising. -/
def pyEqB : PyVal → PyVal → Bool
  | .none, .none => true
  | .bool a, .bool b => a == b
  | .bool a, .int n => (if a then (1 : Int) else 0) == n
  | .int n, .bool a => n == (if a then (1 : Int) else 0)
  | .int a, .int b => a == b
  | .str a, .str b => a == b
  | .list xs, .list ys => pyListEqB xs ys
  | _, _ => false

/-- Elementwise Python `==` on lists. -/
def pyListEqB : List PyVal → List PyVal → Bool
  | [], [] => true
  | x :: xs, y :: ys => pyEqB x y && pyListEqB xs ys
  | _, _ => false

end

/-- An ASCII single-quote character, used by `pyRepr` for string rendering. -/
def pyQuote : String := String.singleton (Char.ofNat 39)

mutual

/-- Python `str(v)`, as used by `"...".format(v)` in the failure messages. -/
def pyStr : PyVal → String
  | .none => "None"
  | .bool b => if b then "True" else "False"
  | .int n => toString n
  | .str s => s
  | .list xs => "[" ++ pyReprList xs ++ "]"

/-- Python `repr(v)` (strings quoted), used for list elements inside `str`. -/
def pyRepr : PyVal → String
  | .none => "None"
  | .bool b => if b then "True" else "False"
  | .int n => toString n
  | .str s => pyQuote ++ s ++ pyQuote
  | .list xs => "[" ++ pyReprList xs ++ "]"

/-- Comma-separated reprs of the elements of a list. -/
def pyReprList : List PyVal → String
  | [] => ""
  | [x] => pyRepr x
  | x :: xs => pyRepr x ++ ", " ++ pyReprList xs

end

/-- Values Python treats as numbers for ordering: ints, and bools as 0/1. -/
def toIntNum : PyVal → Option Int
  | .int n => some n
  | .bool b => some (if b then 1 else 0)
  | _ => Option.none

mutual

/-- Python 3 rich comparison on the embedded universe: numbers (ints and
bools) compare numerically, strings lexicographically, lists
lexicographically elementwise; comparing values of unorderable types raises
`TypeError`, embedded as an error result. -/
def pyCmp : PyVal → PyVal → Except String Ordering
  | .str a, .str b => .ok (compare a b)
  | .list xs, .list ys => pyListCmp xs ys
  | a, b =>
    match toIntNum a, toIntNum b with
    | some m, some n => .ok (compare m n)
    | _, _ => .error "TypeError: comparison not supported between operand types"

/-- Python list comparison: skip the longest `==`-equal prefix, then compare
the first differing elements (which may raise); a proper prefix is smaller. -/
def pyListCmp : List PyVal → List PyVal → Except String Ordering
  | [], [] => .ok .eq
  | [], _ :: _ => .ok .lt
  | _ :: _, [] => .ok .gt
  | x :: xs, y :: ys => if pyEqB x y then pyListCmp xs ys else pyCmp x y

end

/-- Char-list prefix test, used for the substring check below. -/
def charsStartWith : List Char → List Char → Bool
  | [], _ => true
  | _ :: _, [] => false
  | x :: xs, y :: ys => x == y && charsStartWith xs ys

/-- Char-list infix test: the needle occurs contiguously in the haystack. -/
def charsContain (needle : List Char) : List Char → Bool
  | [] => needle.isEmpty
  | c :: t => charsStartWith needle (c :: t) || charsContain needle t

/-- Substring test on strings, for Python `needle in haystack` over str. -/
def strContainsSub (hay needle : String) : Bool :=
  charsContain needle.data hay.data

/-- Python `needle in hay`: substring containment when `hay` is a string
(raising `TypeError` when the needle is not a string), membership by `==`
when `hay` is a list, and `TypeError` on any non-container. -/
def pyIn (needle hay : PyVal) : Except String Bool :=
  match hay with
  | .str s =>
    match needle with
    | .str e => .ok (strContainsSub s e)
    | _ => .error "TypeError: in string requires string as left operand"
  | .list xs => .ok (xs.any (fun x => pyEqB needle x))
  | _ => .error "TypeError: argument is not iterable"

/-- Decimal digit accumulator: all-digits check with base-10 accumulation. -/
def digitsAux : List Char → Nat → Option Nat
  | [], acc => some acc
  | c :: cs, acc =>
    if c.isDigit then digitsAux cs (10 * acc + (c.toNat - 48)) else Option.none

/-- Parse a nonempty all-digit char list as a Nat. -/
def digitsToNat : List Char → Option Nat
  | [] => Option.none
  | cs => digitsAux cs 0

/-- Python `int(s)` on a string: strip surrounding whitespace, allow one
sign, then require a nonempty run of decimal digits; anything else raises
ValueError, modelled as `Option.none`. -/
def pyIntOfString (s : String) : Option Int :=
  let cs := ((s.data.dropWhile Char.isWhitespace).reverse.dropWhile Char.isWhitespace).reverse
  match cs with
  | c :: rest =>
    if c == '-' then (digitsToNat rest).map (fun n => -(n : Int))
    else if c == '+' then (digitsToNat rest).map (fun n => (n : Int))
    else (digitsToNat cs).map (fun n => (n : Int))
  | [] => Option.none

/-- Python `s.split(sep)` with a one-char separator, on char lists: split
at every occurrence, keeping empty pieces ("" splits to [""]). -/
def splitCharAux (sep : Char) : List Char → List (List Char)
  | [] => [[]]
  | c :: cs =>
    if c == sep then [] :: splitCharAux sep cs
    else
      match splitCharAux sep cs with
      | r :: rs => (c :: r) :: rs
      | [] => [[c]]

/-- Python `s.split(".")` as a list of strings. -/
def pySplitDot (s : String) : List String :=
  (splitCharAux '.' s.data).map (fun cs => String.mk cs)

/-- Modelled restriction of Python `eval` (used by `assert_false` on string
input) to the literals representable in `PyVal`: the names True, False and
None, and decimal integer literals, evaluate to the corresponding value;
every other string raises (NameError or SyntaxError in Python), embedded as
an error. -/
def pyEval (s : String) : Except String PyVal :=
  if s = "True" then .ok (.bool true)
  else if s = "False" then .ok (.bool false)
  else if s = "None" then .ok PyVal.none
  else
    match pyIntOfString s with
    | some n => .ok (.int n)
    | Option.none => .error ("NameError: name " ++ s ++ " is not defined")

/-- SaltCheck.assert_equal: `assert expected == returned`; only
AssertionError is caught, and `==` never raises on this universe, so the
result is total: True on pass, a prefixed failure string otherwise. -/
def assert_equal (expected returned : PyVal) : Except String PyVal :=
  if pyEqB expected returned then .ok (.bool true)
  else .ok (.str ("False: " ++ pyStr expected ++ " is not equal to " ++ pyStr returned))

/-- SaltCheck.assert_not_equal: `assert expected != returned`. -/
def assert_not_equal (expected returned : PyVal) : Except String PyVal :=
  if pyEqB expected returned then
    .ok (.str ("False: " ++ pyStr expected ++ " is equal to " ++ pyStr returned))
  else .ok (.bool true)

/-- SaltCheck.assert_true: `assert returned is True` — identity with the
canonical boolean True, so only `bool true` passes. -/
def assert_true (returned : PyVal) : Except String PyVal :=
  match returned with
  | .bool true => .ok (.bool true)
  | r => .ok (.str ("False: " ++ pyStr r ++ " not True"))

/-- SaltCheck.assert_false: a string argument is first passed through
`eval` (outside the try block, so an eval failure propagates), then
`assert returned is False`. -/
def assert_false (returned : PyVal) : Except String PyVal :=
  match (match returned with | .str s => pyEval s | v => Except.ok v) with
  | .error e => .error e
  | .ok (.bool false) => .ok (.bool true)
  | .ok v => .ok (.str ("False: " ++ pyStr v ++ " not False"))

/-- SaltCheck.assert_in: `assert expected in returned`; a TypeError from
`in` on a non-container is not caught and propagates.  The failure message
text reproduces the source's copy-pasted wording. -/
def assert_in (expected returned : PyVal) : Except String PyVal :=
  match pyIn expected returned with
  | .error e => .error e
  | .ok true => .ok (.bool true)
  | .ok false => .ok (.str ("False: " ++ pyStr returned ++ " not False"))

/-- SaltCheck.assert_not_in: `assert expected not in returned`. -/
def assert_not_in (expected returned : PyVal) : Except String PyVal :=
  match pyIn expected returned with
  | .error e => .error e
  | .ok true => .ok (.str ("False: " ++ pyStr returned ++ " not False"))
  | .ok false => .ok (.bool true)

/-- SaltCheck.assert_greater: `assert expected > returned`; a TypeError
from comparing unorderable types is not caught and propagates. -/
def assert_greater (expected returned : PyVal) : Except String PyVal :=
  match pyCmp expected returned with
  | .error e => .error e
  | .ok c =>
    if c == Ordering.gt then .ok (.bool true)
    else .ok (.str ("False: " ++ pyStr returned ++ " not False"))

/-- SaltCheck.assert_greater_equal: `assert expected >= returned`. -/
def assert_greater_equal (expected returned : PyVal) : Except String PyVal :=
  match pyCmp expected returned with
  | .error e => .error e
  | .ok c =>
    if c == Ordering.lt then .ok (.str ("False: " ++ pyStr returned ++ " not False"))
    else .ok (.bool true)

/-- SaltCheck.assert_less: `assert expected < returned`. -/
def assert_less (expected returned : PyVal) : Except String PyVal :=
  match pyCmp expected returned with
  | .error e => .error e
  | .ok c =>
    if c == Ordering.lt then .ok (.bool true)
    else .ok (.str ("False: " ++ pyStr returned ++ " not False"))

/-- SaltCheck.assert_less_equal: `assert expected <= returned`. -/
def assert_less_equal (expected returned : PyVal) : Except String PyVal :=
  match pyCmp expected returned with
  | .error e => .error e
  | .ok c =>
    if c == Ordering.gt then .ok (.str ("False: " ++ pyStr returned ++ " not False"))
    else .ok (.bool true)

/-- The collaborator registry, standing for the salt minion queried through
`sys.list_modules` (modules) and `sys.list_functions` (functions per module,
including the source's fallback list on a SaltException). -/
structure Registry : Type where
  modules : List String
  functions : String → List String

/-- SaltCheck.assertions_list, exactly as built at source lines 82-86 by
splitting the triple-quoted string: nine entries — assertNotIn is absent. -/
def assertions_list : List String :=
  ["assertEqual", "assertNotEqual", "assertTrue", "assertFalse",
   "assertIn", "assertGreater", "assertGreaterEqual", "assertLess",
   "assertLessEqual"]

/-- SaltCheck.is_valid_module: membership of the module name in the
minion's module list. -/
def is_valid_module (reg : Registry) (module_name : String) : Bool :=
  reg.modules.contains module_name

/-- SaltCheck.is_valid_function: membership of "module.function" in the
list returned by sys.list_functions for the module. -/
def is_valid_function (reg : Registry) (module function : String) : Bool :=
  (reg.functions module).contains (module ++ "." ++ function)

/-- A parsed test declaration, embedding the Python dict consumed by
`is_valid_test`/`run_test`.  `dict.get(key, None)` makes an absent key
indistinguishable from a present None, so every field is a `PyVal` and
absence is `PyVal.none`. -/
structure TestDict : Type where
  module_and_function : PyVal
  args : PyVal
  assertion : PyVal
  expected_return : PyVal
  kwargs : PyVal

/-- A test declaration with every field absent. -/
def emptyTest : TestDict :=
  { module_and_function := PyVal.none, args := PyVal.none,
    assertion := PyVal.none, expected_return := PyVal.none,
    kwargs := PyVal.none }

/-- The module_and_function portion of the validation score (source lines
163-169): a truthy value scores one point plus one per registry check, but
first runs `module, function = m_and_f.split(chr 46)` — which raises
AttributeError on a non-string and ValueError unless the split yields
exactly two parts.  A falsy value scores zero. -/
def mf_score (reg : Registry) (m_and_f : PyVal) : Except String Nat :=
  if pyTruthy m_and_f then
    match m_and_f with
    | .str s =>
      match pySplitDot s with
      | [module, function] =>
        .ok (1 + (if is_valid_module reg module then 1 else 0)
               + (if is_valid_function reg module function then 1 else 0))
      | _ => .error "ValueError: unpacking m_and_f.split did not yield two values"
    | _ => .error "AttributeError: object has no attribute split"
  else .ok 0

/-- Python `assertion in self.assertions_list`: list membership under `==`,
so only a string equal to one of the nine entries is a member. -/
def assertion_in_list (a : PyVal) : Bool :=
  match a with
  | .str s => assertions_list.contains s
  | _ => false

/-- SaltCheck.is_valid_test (source lines 153-177): additive scoring —
up to three points for module_and_function, up to two for the assertion,
one for expected-return — passing at six, the maximum.  The split inside
the module_and_function branch can raise, embedded as an error result. -/
def is_valid_test (reg : Registry) (t : TestDict) : Except String Bool :=
  match mf_score reg t.module_and_function with
  | .error e => .error e
  | .ok t1 =>
    let t2 := if pyTruthy t.assertion then
        1 + (if assertion_in_list t.assertion then 1 else 0) else 0
    let t3 := if pyTruthy t.expected_return then 1 else 0
    .ok (decide (t1 + t2 + t3 ≥ 6))

/-- Python type construction `ty(v)`, as attempted inside
cast_expected_to_returned_type; `Option.none` marks the constructions that
raise (swallowed there by the bare except).  bool(v) is truthiness and
never raises; int accepts ints, bools and numeric strings; str always
succeeds; list accepts lists and strings (a string becomes its characters);
NoneType(v) always raises. -/
def pyCast (ty : PyType) (v : PyVal) : Option PyVal :=
  match ty with
  | .boolT => some (.bool (pyTruthy v))
  | .intT =>
    match v with
    | .int n => some (.int n)
    | .bool b => some (.int (if b then 1 else 0))
    | .str s => (pyIntOfString s).map PyVal.int
    | _ => Option.none
  | .strT => some (.str (pyStr v))
  | .listT =>
    match v with
    | .list xs => some (.list xs)
    | .str s => some (.list (s.data.map (fun c => PyVal.str (String.singleton c))))
    | _ => Option.none
  | .noneT => Option.none

/-- SaltCheck.cast_expected_to_returned_type (source lines 253-271):
special-case the literal string "False" against a boolean actual, then try
to construct a value of the actual's type from the expected; on failure the
bare except keeps `new_expected`, which still holds the ORIGINAL expected
(it was assigned before the special case rebinds `expected`). -/
def cast_expected_to_returned_type (expected returned : PyVal) : PyVal :=
  let expected2 :=
    if pyEqB expected (.str "False") && (pyType returned == PyType.boolT)
    then PyVal.bool false else expected
  match pyCast (pyType returned) expected2 with
  | some v => v
  | Option.none => expected

/-- SaltCheck.run_test (source lines 212-251).  `caller` stands for
self.call_salt_command, the collaborator dispatch: it catches every
exception and returns it as a value, so it is embedded as a total function
of the operation name, args and kwargs.  An invalid test yields the
"False: Invalid test" string without any dispatch; a valid one dispatches,
coerces the expected value and selects the evaluator by string comparison,
falling through to plain False on an unmatched assertion name.  Note the
assertTrue/assertFalse branches pass the (coerced) expected value, as the
source does. -/
def run_test (reg : Registry) (caller : PyVal → PyVal → PyVal → PyVal)
    (t : TestDict) : Except String PyVal :=
  match is_valid_test reg t with
  | .error e => .error e
  | .ok valid =>
    if valid then
      let actual_return := caller t.module_and_function t.args t.kwargs
      let expected_return := cast_expected_to_returned_type t.expected_return actual_return
      let a := t.assertion
      if pyEqB a (.str "assertEqual") then assert_equal expected_return actual_return
      else if pyEqB a (.str "assertNotEqual") then assert_not_equal expected_return actual_return
      else if pyEqB a (.str "assertTrue") then assert_true expected_return
      else if pyEqB a (.str "assertFalse") then assert_false expected_return
      else if pyEqB a (.str "assertIn") then assert_in expected_return actual_return
      else if pyEqB a (.str "assertNotIn") then assert_not_in expected_return actual_return
      else if pyEqB a (.str "assertGreater") then assert_greater expected_return actual_return
      else if pyEqB a (.str "assertGreaterEqual") then assert_greater_equal expected_return actual_return
      else if pyEqB a (.str "assertLess") then assert_less expected_return actual_return
      else if pyEqB a (.str "assertLessEqual") then assert_less_equal expected_return actual_return
      else Except.ok (.bool false)
    else Except.ok (.str "False: Invalid test")

/-- Python dict item assignment `d[k] = v` on an insertion-ordered
association list whose keys are unique (as a dict's are): replace the
value in place when the key is present, append a new binding otherwise. -/
def dict_set {α : Type} : List (String × α) → String → α → List (String × α)
  | [], k, v => [(k, v)]
  | p :: rest, k, v =>
    if p.1 == k then (k, v) :: rest else p :: dict_set rest k v

/-- Python dict lookup `d.get(k)`. -/
def dict_get {α : Type} : List (String × α) → String → Option α
  | [], _ => Option.none
  | p :: rest, k => if p.1 == k then some p.2 else dict_get rest k

/-- StateTestLoader.load_file (source lines 455-466), past the collaborator
I/O and YAML parse: each (name, body) pair of the parsed file is assigned
into the accumulated test_dict, overwriting an existing binding. -/
def load_file {α : Type} (acc : List (String × α))
    (contents : List (String × α)) : List (String × α) :=
  contents.foldl (fun a kv => dict_set a kv.1 kv.2) acc

/-- StateTestLoader.load_test_suite (source lines 450-453): fold load_file
over the discovered files in discovery order, starting from the empty
test_dict the loader is constructed with. -/
def load_test_suite {α : Type} (files : List (List (String × α))) :
    List (String × α) :=
  files.foldl load_file []

/-- The last binding of a key in a flat list of (name, body) pairs —
the reference "last write wins" semantics the merge is compared against. -/
def last_binding {α : Type} (l : List (String × α)) (k : String) : Option α :=
  (l.reverse.find? (fun p => p.1 == k)).map (fun p => p.2)

/-- Environment of run_state_tests: the collaborator registry and dispatch
for SaltCheck, the result of StateTestLoader.find_state_dir per state name,
and the parsed (name → body) contents of each .tst file gathered under a
found directory, in discovery order. -/
structure StateEnv : Type where
  reg : Registry
  caller : PyVal → PyVal → PyVal → PyVal
  state_dir : String → Option String
  files_of_dir : String → List (List (String × TestDict))

/-- Return value of run_state_tests: either the bare string returned for a
missing state name, or the mapping with the single key state_name. -/
inductive RunStateReturn : Type
  | message (s : String)
  | report (state : String) (results : List (String × PyVal))

/-- The results loop of run_state_tests (source lines 541-543): run each
test of the merged test_dict in order, collecting per-name results; an
exception escaping run_test aborts the loop (and the whole call). -/
def run_tests_loop (reg : Registry) (caller : PyVal → PyVal → PyVal → PyVal) :
    List (String × TestDict) → Except String (List (String × PyVal))
  | [] => Except.ok []
  | (k, v) :: rest =>
    match run_test reg caller v with
    | .error e => .error e
    | .ok r =>
      match run_tests_loop reg caller rest with
      | .error e => .error e
      | .ok tail => .ok ((k, r) :: tail)

/-- run_state_tests (source lines 517-545).  A falsy state name (None or
the empty string) returns the bare message; otherwise the state directory
is looked up, its test files (if any) are merged by load_test_suite and run
one by one, and the per-test results are returned under the single key
state_name — an empty map when no directory was found. -/
def run_state_tests (env : StateEnv) (state_name : Option String) :
    Except String RunStateReturn :=
  match state_name with
  | Option.none => Except.ok (.message "State name required")
  | some name =>
    if name = "" then Except.ok (.message "State name required")
    else
      match env.state_dir name with
      | some dir =>
        (match run_tests_loop env.reg env.caller
            (load_test_suite (env.files_of_dir dir)) with
        | .error e => .error e
        | .ok results => Except.ok (.report name results))
      | Option.none => Except.ok (.report name [])

/-! Concrete instances used by counterexamples and witnesses. -/

/-- A registry with one module `foo` exposing one function `foo.bar`. -/
def regDemo : Registry := { modules := ["foo"], functions := fun _ => ["foo.bar"] }

/-- A declaration that is valid in `regDemo`: real module and function,
recognized assertion, truthy expected-return. -/
def testIn : TestDict :=
  { module_and_function := PyVal.str "foo.bar", args := PyVal.none,
    assertion := PyVal.str "assertIn", expected_return := PyVal.str "x",
    kwargs := PyVal.none }

/-- The same declaration with assertion assertNotIn — every other
validation condition still holds. -/
def testNotIn : TestDict := { testIn with assertion := PyVal.str "assertNotIn" }

/-- The same declaration with a target_operation that has no dot. -/
def badTest : TestDict := { testIn with module_and_function := PyVal.str "nodot" }

/-- A state environment whose one discovered test has the dotless
target_operation. -/
def envCrash : StateEnv :=
  { reg := regDemo, caller := fun _ _ _ => PyVal.none,
    state_dir := fun _ => some "d",
    files_of_dir := fun _ => [[("t1", badTest)]] }

/-- A state environment in which no state directory is ever found. -/
def envEmpty : StateEnv :=
  { reg := regDemo, caller := fun _ _ _ => PyVal.none,
    state_dir := fun _ => Option.none,
    files_of_dir := fun _ => [] }

/-- Shape of every value an evaluator actually returns: the boolean True on
a passing predicate, or a diagnostic string prefixed with the failure
marker. -/
def okShape (v : PyVal) : Prop :=
  v = PyVal.bool true ∨ ∃ s, v = PyVal.str ("False: " ++ s)

/-- C1 counterexample: the claim that the evaluators never let an exception
escape is false — only AssertionError is caught, so membership on a
non-container (a TypeError in both Python 2 and 3), eval of a non-literal
string inside assert_false (a NameError), and ordering of unorderable
types (a TypeError under Python 3) all propagate to the caller. -/
theorem C1_cex :
    assert_in (PyVal.int 1) (PyVal.int 5) =
      Except.error "TypeError: argument is not iterable" ∧
    assert_false (PyVal.str "garbage") =
      Except.error "NameError: name garbage is not defined" ∧
    assert_greater (PyVal.int 1) (PyVal.str "a") =
      Except.error "TypeError: comparison not supported between operand types" :=
  ⟨rfl, rfl, rfl⟩

/-- C1 (amended): every value any of the ten assertion evaluators does
return (as opposed to an escaping exception) is a TestResult of the fixed
shape — the boolean True, or a diagnostic string prefixed with the failure
marker; but on a type-incompatible comparison the exception escapes
(see the counterexample) rather than being wrapped. -/
theorem C1_evaluators_ok_shape (e r v : PyVal) :
    (assert_equal e r = Except.ok v → okShape v) ∧
    (assert_not_equal e r = Except.ok v → okShape v) ∧
    (assert_true r = Except.ok v → okShape v) ∧
    (assert_false r = Except.ok v → okShape v) ∧
    (assert_in e r = Except.ok v → okShape v) ∧
    (assert_not_in e r = Except.ok v → okShape v) ∧
    (assert_greater e r = Except.ok v → okShape v) ∧
    (assert_greater_equal e r = Except.ok v → okShape v) ∧
    (assert_less e r = Except.ok v → okShape v) ∧
    (assert_less_equal e r = Except.ok v → okShape v) := by
  refine ⟨?_, ?_, ?_, ?_, ?_, ?_, ?_, ?_, ?_, ?_⟩
  · intro h
    unfold assert_equal at h
    split at h
    · exact Or.inl (Except.ok.inj h).symm
    · exact Or.inr ⟨_, (Except.ok.inj h).symm⟩
  · intro h
    unfold assert_not_equal at h
    split at h
    · exact Or.inr ⟨_, (Except.ok.inj h).symm⟩
    · exact Or.inl (Except.ok.inj h).symm
  · intro h
    unfold assert_true at h
    split at h
    · exact Or.inl (Except.ok.inj h).symm
    · exact Or.inr ⟨_, (Except.ok.inj h).symm⟩
  · intro h
    unfold assert_false at h
    split at h
    · simp at h
    · exact Or.inl (Except.ok.inj h).symm
    · exact Or.inr ⟨_, (Except.ok.inj h).symm⟩
  · intro h
    unfold assert_in at h
    split at h
    · simp at h
    · exact Or.inl (Except.ok.inj h).symm
    · exact Or.inr ⟨_, (Except.ok.inj h).symm⟩
  · intro h
    unfold assert_not_in at h
    split at h
    · simp at h
    · exact Or.inr ⟨_, (Except.ok.inj h).symm⟩
    · exact Or.inl (Except.ok.inj h).symm
  · intro h
    unfold assert_greater at h
    split at h
    · simp at h
    · split at h
      · exact Or.inl (Except.ok.inj h).symm
      · exact Or.inr ⟨_, (Except.ok.inj h).symm⟩
  · intro h
    unfold assert_greater_equal at h
    split at h
    · simp at h
    · split at h
      · exact Or.inr ⟨_, (Except.ok.inj h).symm⟩
      · exact Or.inl (Except.ok.inj h).symm
  · intro h
    unfold assert_less at h
    split at h
    · simp at h
    · split at h
      · exact Or.inl (Except.ok.inj h).symm
      · exact Or.inr ⟨_, (Except.ok.inj h).symm⟩
  · intro h
    unfold assert_less_equal at h
    split at h
    · simp at h
    · split at h
      · exact Or.inr ⟨_, (Except.ok.inj h).symm⟩
      · exact Or.inl (Except.ok.inj h).symm

/-- Witness for the amended C1 theorem at concrete inputs: a passing
equality and a failing membership both land in the TestResult shape. -/
theorem C1_evaluators_ok_shape_witness :
    okShape (PyVal.bool true) ∧
    okShape (PyVal.str ("False: " ++ "[1]" ++ " not False")) :=
  ⟨(C1_evaluators_ok_shape (PyVal.int 0) (PyVal.int 0) (PyVal.bool true)).1 rfl,
   ((C1_evaluators_ok_shape (PyVal.int 7) (PyVal.list [PyVal.int 1])
      (PyVal.str ("False: " ++ "[1]" ++ " not False"))).2.2.2.2.1) rfl⟩

/-- C2: a declaration whose assertion is assertNotIn and whose every other
validation condition holds is nevertheless rejected — assertions_list
(source lines 82-86) omits assertNotIn, so the score stalls at five of six;
run_test then answers "False: Invalid test" for every collaborator, leaving
its own assertNotIn dispatch branch (source line 237) unreachable, while
the identical declaration with assertIn validates.  This contradicts both
the closed ten-kind enumeration and the presence of the assert_not_in
evaluator the branch was written for. -/
theorem C2_assertNotIn_rejected :
    is_valid_test regDemo testNotIn = Except.ok false ∧
    (∀ caller, run_test regDemo caller testNotIn =
      Except.ok (PyVal.str "False: Invalid test")) ∧
    is_valid_test regDemo testIn = Except.ok true ∧
    assertions_list.contains "assertNotIn" = false :=
  ⟨rfl, fun _ => rfl, rfl, rfl⟩

/-- C7: coercion round-trips of the spec hold and coercion is non-fatal:
"5" against an integer actual becomes the integer 5; "True" against a
boolean actual becomes boolean true; "False" against a boolean actual hits
the literal-string special case and becomes boolean false; an unparseable
string against an integer actual is returned unchanged (the failed
construction is swallowed and the original value kept). -/
theorem C7_coercion_roundtrips :
    (∀ n : Int, cast_expected_to_returned_type (PyVal.str "5") (PyVal.int n) =
      PyVal.int 5) ∧
    (∀ b : Bool, cast_expected_to_returned_type (PyVal.str "True") (PyVal.bool b) =
      PyVal.bool true) ∧
    (∀ b : Bool, cast_expected_to_returned_type (PyVal.str "False") (PyVal.bool b) =
      PyVal.bool false) ∧
    (∀ n : Int, cast_expected_to_returned_type
      (PyVal.str "unparsed-garbage") (PyVal.int n) =
      PyVal.str "unparsed-garbage") :=
  ⟨fun _ => rfl, fun _ => rfl, fun _ => rfl, fun _ => rfl⟩

/-- The module_and_function sub-score never exceeds three points. -/
theorem mf_score_le_three (reg : Registry) (m : PyVal) (n : Nat)
    (h : mf_score reg m = Except.ok n) : n ≤ 3 := by
  unfold mf_score at h
  split at h
  · split at h
    · split at h
      · have hn := (Except.ok.inj h).symm
        subst hn
        split_ifs <;> omega
      · simp at h
    · simp at h
  · have hn := (Except.ok.inj h).symm
    subst hn
    omega

/-- The module_and_function sub-score reaches its three-point maximum
exactly when the field is a nonempty string splitting at the dot into a
registered module and a registered function. -/
theorem mf_score_eq_three_iff (reg : Registry) (m : PyVal) :
    mf_score reg m = Except.ok 3 ↔
      ∃ s module function, m = PyVal.str s ∧ s ≠ "" ∧
        pySplitDot s = [module, function] ∧
        is_valid_module reg module = true ∧
        is_valid_function reg module function = true := by
  constructor
  · intro h
    unfold mf_score at h
    split at h
    · rename_i htr
      split at h
      · rename_i s
        split at h
        · rename_i module function hsplit
          split_ifs at h with h1 h2
          · refine ⟨s, module, function, rfl, ?_, hsplit, h1, h2⟩
            simpa [pyTruthy] using htr
          · have := Except.ok.inj h; omega
          · have := Except.ok.inj h; omega
          · have := Except.ok.inj h; omega
        · simp at h
      · simp at h
    · have := Except.ok.inj h; omega
  · rintro ⟨s, module, function, rfl, hne, hsplit, hmod, hfn⟩
    unfold mf_score
    simp [pyTruthy, hne, hsplit, hmod, hfn]

/-- C3: the additive six-point scoring of is_valid_test with its pass-at-six
threshold is exactly the conjunction of all the validation conditions as
the code checks them: the six obtainable points are the maximum, so the
threshold forces every check — a nonempty dotted target naming a registered
module and function, a truthy assertion that is a member of
assertions_list, and a truthy expected-return.  In particular a declaration
whose assertion is unrecognized can score at most five and never passes. -/
theorem C3_additive_scoring_iff_conjunction (reg : Registry) (t : TestDict) :
    is_valid_test reg t = Except.ok true ↔
      (∃ s module function, t.module_and_function = PyVal.str s ∧ s ≠ "" ∧
        pySplitDot s = [module, function] ∧
        is_valid_module reg module = true ∧
        is_valid_function reg module function = true) ∧
      pyTruthy t.assertion = true ∧
      assertion_in_list t.assertion = true ∧
      pyTruthy t.expected_return = true := by
  constructor
  · intro h
    unfold is_valid_test at h
    cases hm : mf_score reg t.module_and_function with
    | error e => rw [hm] at h; simp at h
    | ok t1 =>
      rw [hm] at h
      have ht1 : t1 ≤ 3 := mf_score_le_three _ _ _ hm
      have hd := Except.ok.inj h
      rw [decide_eq_true_iff] at hd
      split_ifs at hd with h1 h2 h3
      · have h13 : t1 = 3 := by omega
        subst h13
        exact ⟨(mf_score_eq_three_iff _ _).1 hm, h1, h2, h3⟩
      · omega
      · omega
      · omega
      · omega
      · omega
  · rintro ⟨hmf, h1, h2, h3⟩
    have hm : mf_score reg t.module_and_function = Except.ok 3 :=
      (mf_score_eq_three_iff _ _).2 hmf
    unfold is_valid_test
    rw [hm]
    simp [h1, h2, h3]

/-- Witness for C3 at a concrete valid declaration and registry. -/
theorem C3_witness :
    is_valid_test regDemo testIn = Except.ok true :=
  (C3_additive_scoring_iff_conjunction regDemo testIn).2
    ⟨⟨"foo.bar", "foo", "bar", rfl, by decide, rfl, rfl, rfl⟩, rfl, rfl, rfl⟩

/-- C4 counterexample: validation is not exception-free — a truthy
target_operation without a dot makes `module, function = m_and_f.split`
raise a ValueError that escapes is_valid_test (and hence run_test and the
whole batch), instead of the declaration merely failing validation. -/
theorem C4_cex :
    is_valid_test regDemo badTest =
      Except.error "ValueError: unpacking m_and_f.split did not yield two values" ∧
    is_valid_test regDemo { testIn with module_and_function := PyVal.str "a.b.c" } =
      Except.error "ValueError: unpacking m_and_f.split did not yield two values" ∧
    (∀ caller, run_test regDemo caller badTest =
      Except.error "ValueError: unpacking m_and_f.split did not yield two values") :=
  ⟨rfl, rfl, fun _ => rfl⟩

/-- C4 (amended): is_valid_test returns a boolean value — never an
exception — for every declaration whose target_operation is either falsy
(absent) or a string splitting at dots into exactly two parts; a truthy
target_operation that is not such a string instead raises, aborting the
run (see the counterexample). -/
theorem C4_validation_total_on_wellformed (reg : Registry) (t : TestDict)
    (h : pyTruthy t.module_and_function = false ∨
      ∃ s m f, t.module_and_function = PyVal.str s ∧ pySplitDot s = [m, f]) :
    ∃ b, is_valid_test reg t = Except.ok b := by
  have hmf : ∃ n, mf_score reg t.module_and_function = Except.ok n := by
    cases h with
    | inl hfalse =>
      refine ⟨0, ?_⟩
      unfold mf_score
      rw [hfalse]
      simp
    | inr hex =>
      obtain ⟨s, m, f, hs, hsplit⟩ := hex
      unfold mf_score
      rw [hs]
      by_cases hne : pyTruthy (PyVal.str s) = true
      · rw [hne]
        simp [hsplit]
      · have hse : s = "" := by simpa [pyTruthy] using hne
        subst hse
        exact ⟨0, by simp [pyTruthy]⟩
  obtain ⟨n, hn⟩ := hmf
  unfold is_valid_test
  rw [hn]
  exact ⟨_, rfl⟩

/-- Witness for the amended C4 theorem: a declaration with every field
absent validates (to false) without an exception. -/
theorem C4_validation_total_witness :
    ∃ b, is_valid_test regDemo emptyTest = Except.ok b :=
  C4_validation_total_on_wellformed regDemo emptyTest (Or.inl rfl)

/-- C5 counterexample: presence of expected-return is not enough — the
check is `if expected_return:`, Python truthiness, so a declaration whose
expected-return is the present, non-null boolean false (or zero, or the
empty string) fails validation even though the identical declaration with
a truthy expected-return passes. -/
theorem C5_cex :
    is_valid_test regDemo { testIn with expected_return := PyVal.bool false } =
      Except.ok false ∧
    is_valid_test regDemo { testIn with expected_return := PyVal.int 0 } =
      Except.ok false ∧
    is_valid_test regDemo { testIn with expected_return := PyVal.str "" } =
      Except.ok false ∧
    is_valid_test regDemo testIn = Except.ok true :=
  ⟨rfl, rfl, rfl, rfl⟩

/-- C5 (amended): the expected-value condition of is_valid_test is
truthiness, not presence: with the other five points secured, the
declaration passes exactly when its expected-return field is truthy —
regardless of its type, but excluding the falsy values false, zero, the
empty string, the empty list and None. -/
theorem C5_expected_check_is_truthiness (reg : Registry) (t : TestDict)
    (h1 : mf_score reg t.module_and_function = Except.ok 3)
    (h2 : pyTruthy t.assertion = true)
    (h3 : assertion_in_list t.assertion = true) :
    (is_valid_test reg t = Except.ok true ↔ pyTruthy t.expected_return = true) := by
  unfold is_valid_test
  rw [h1]
  simp [h2, h3]
  constructor
  · intro h
    by_contra hc
    simp at hc
    rw [hc] at h
    simp at h
  · intro h
    rw [h]
    simp

/-- Witness for the amended C5 theorem at the concrete valid declaration. -/
theorem C5_expected_check_witness :
    is_valid_test regDemo testIn = Except.ok true ↔
      pyTruthy testIn.expected_return = true :=
  C5_expected_check_is_truthiness regDemo testIn rfl rfl rfl

/-- C6: a declaration that fails validation is reported, never executed —
run_test answers the tagged "False: Invalid test" failure value, and the
answer is the same for every collaborator dispatch function, so the
dispatch interface is unreachable on the invalid branch. -/
theorem C6_invalid_never_dispatched (reg : Registry) (t : TestDict)
    (h : is_valid_test reg t = Except.ok false) :
    ∀ caller, run_test reg caller t = Except.ok (PyVal.str "False: Invalid test") := by
  intro caller
  unfold run_test
  rw [h]
  rfl

/-- Witness for C6: the all-fields-absent declaration is invalid and
run_test reports it with the tag, for a concrete collaborator. -/
theorem C6_invalid_never_dispatched_witness :
    run_test regDemo (fun _ _ _ => PyVal.none) emptyTest =
      Except.ok (PyVal.str "False: Invalid test") :=
  C6_invalid_never_dispatched regDemo emptyTest rfl (fun _ _ _ => PyVal.none)

mutual

/-- Python `==` is reflexive on the embedded universe. -/
theorem pyEqB_refl : ∀ a : PyVal, pyEqB a a = true
  | .none => rfl
  | .bool b => by simp [pyEqB]
  | .int n => by simp [pyEqB]
  | .str s => by simp [pyEqB]
  | .list xs => by
    unfold pyEqB
    exact pyListEqB_refl xs

/-- Elementwise Python `==` is reflexive on lists. -/
theorem pyListEqB_refl : ∀ xs : List PyVal, pyListEqB xs xs = true
  | [] => rfl
  | x :: xs => by
    unfold pyListEqB
    rw [pyEqB_refl x, pyListEqB_refl xs]
    rfl

end

/-- C8: the equality algebra — Equal(a, a) passes and NotEqual(a, a) fails
with its diagnostic string, for every value; and whenever a and b are
unequal under the runtime's generic equality, NotEqual(a, b) passes while
Equal(a, b) fails with a diagnostic string containing the rendering of
both operands. -/
theorem C8_equal_not_equal_algebra (a b : PyVal) :
    assert_equal a a = Except.ok (PyVal.bool true) ∧
    assert_not_equal a a =
      Except.ok (PyVal.str ("False: " ++ pyStr a ++ " is equal to " ++ pyStr a)) ∧
    (pyEqB a b = false →
      assert_not_equal a b = Except.ok (PyVal.bool true) ∧
      ∃ pre mid, assert_equal a b =
        Except.ok (PyVal.str (pre ++ pyStr a ++ mid ++ pyStr b))) := by
  refine ⟨?_, ?_, ?_⟩
  · unfold assert_equal
    rw [pyEqB_refl a]
    rfl
  · unfold assert_not_equal
    rw [pyEqB_refl a]
    rfl
  · intro hne
    constructor
    · unfold assert_not_equal
      rw [hne]
      rfl
    · refine ⟨"False: ", " is not equal to ", ?_⟩
      unfold assert_equal
      rw [hne]
      rfl

/-- Witness for C8 at two concrete unequal integers. -/
theorem C8_equal_not_equal_algebra_witness :
    assert_not_equal (PyVal.int 0) (PyVal.int 1) = Except.ok (PyVal.bool true) :=
  ((C8_equal_not_equal_algebra (PyVal.int 0) (PyVal.int 1)).2.2 rfl).1

/-- First-match lookup distributes over list append. -/
theorem find?_append_split {α : Type} (p : α → Bool) (l1 l2 : List α) :
    (l1 ++ l2).find? p =
      match l1.find? p with
      | some x => some x
      | Option.none => l2.find? p := by
  induction l1 with
  | nil => rfl
  | cons a l ih =>
    by_cases h : p a <;> simp [List.find?, h, ih]

/-- Lookup after a Python dict assignment: the assigned key now maps to the
new value, every other key is untouched. -/
theorem dict_get_set {α : Type} (d : List (String × α)) (k k' : String) (v : α) :
    dict_get (dict_set d k v) k' = if k' = k then some v else dict_get d k' := by
  induction d with
  | nil =>
    by_cases h : k' = k <;> simp [dict_set, dict_get, h]
    exact fun e => h e.symm
  | cons p rest ih =>
    by_cases hpk : p.1 = k
    · by_cases hk : k' = k <;> simp [dict_set, dict_get, hpk, hk]
      have hk3 : ¬(k = k') := fun e => hk e.symm
      simp [hk3]
    · by_cases hk : k' = k
      · subst hk
        have hpk2 : p.1 ≠ k' := hpk
        simp [dict_set, dict_get, hpk2, ih]
      · simp [dict_set, dict_get, hpk, ih, hk]

/-- The last binding in a concatenation comes from the right part when the
right part binds the key, from the left part otherwise. -/
theorem last_binding_append {α : Type} (l1 l2 : List (String × α)) (k : String) :
    last_binding (l1 ++ l2) k =
      match last_binding l2 k with
      | some v => some v
      | Option.none => last_binding l1 k := by
  unfold last_binding
  rw [List.reverse_append, find?_append_split]
  cases l2.reverse.find? (fun p => p.1 == k) <;> rfl

/-- Loading one parsed file merges its bindings over the accumulator:
each key maps to the file's last binding for it, or else keeps the
accumulator's binding. -/
theorem dict_get_load_file {α : Type} (contents : List (String × α)) :
    ∀ (acc : List (String × α)) (k : String),
      dict_get (load_file acc contents) k =
        match last_binding contents k with
        | some v => some v
        | Option.none => dict_get acc k := by
  induction contents with
  | nil => intro acc k; rfl
  | cons p rest ih =>
    intro acc k
    have hstep : load_file acc (p :: rest) = load_file (dict_set acc p.1 p.2) rest := rfl
    rw [hstep, ih]
    have hlb : last_binding (p :: rest) k =
        match last_binding rest k with
        | some v => some v
        | Option.none => last_binding [p] k := by
      have : p :: rest = [p] ++ rest := rfl
      rw [this, last_binding_append]
    rw [hlb]
    cases hr : last_binding rest k with
    | some v => rfl
    | none =>
      rw [dict_get_set]
      unfold last_binding
      by_cases hk : k = p.1
      · simp [List.find?, hk]
      · have hk2 : p.1 ≠ k := fun e => hk e.symm
        have hbeq : (p.1 == k) = false := beq_eq_false_iff_ne.mpr hk2
        simp [List.find?, hbeq, hk]

/-- Folding the loader over a file sequence from any accumulator. -/
theorem dict_get_foldl_load {α : Type} (files : List (List (String × α))) :
    ∀ (acc : List (String × α)) (k : String),
      dict_get (files.foldl load_file acc) k =
        match last_binding files.flatten k with
        | some v => some v
        | Option.none => dict_get acc k := by
  induction files with
  | nil => intro acc k; rfl
  | cons f fs ih =>
    intro acc k
    rw [List.foldl_cons, ih]
    have hj : (f :: fs).flatten = f ++ fs.flatten := rfl
    rw [hj, last_binding_append, dict_get_load_file]
    cases last_binding fs.flatten k with
    | some v => rfl
    | none => cases last_binding f k with
      | some v => rfl
      | none => rfl

/-- C9: merging discovered test files is last-write-wins — for every
sequence of parsed test files in discovery order, the merged collection of
load_test_suite maps each test name exactly to the last binding of that
name across the concatenated sequence (so a later file's body silently
overwrites an earlier one's), and the merge is total: no duplicate-name
error exists, as the theorem holds with no hypothesis on duplicates. -/
theorem C9_load_test_suite_last_write_wins {α : Type}
    (files : List (List (String × α))) (k : String) :
    dict_get (load_test_suite files) k = last_binding files.flatten k := by
  unfold load_test_suite
  rw [dict_get_foldl_load]
  cases last_binding files.flatten k <;> rfl

/-- C10 counterexample: with a non-empty state name the call does not
always return a report mapping — a discovered test whose target_operation
lacks a dot makes is_valid_test raise inside run_test, and run_state_tests
propagates the exception instead of returning a value. -/
theorem C10_cex :
    run_state_tests envCrash (some "apache") =
      Except.error "ValueError: unpacking m_and_f.split did not yield two values" :=
  rfl

/-- C10 (amended): a falsy (null or empty) state name returns the bare
"State name required" string; with a non-empty name, whenever the call
returns a value at all that value is a mapping with exactly one key — the
given state name — whose per-test result map is empty when no matching
state directory is found; but an exception escaping a test's validation or
evaluation propagates out instead of producing a report (see the
counterexample). -/
theorem C10_run_state_tests_shape (env : StateEnv) :
    run_state_tests env Option.none =
      Except.ok (RunStateReturn.message "State name required") ∧
    run_state_tests env (some "") =
      Except.ok (RunStateReturn.message "State name required") ∧
    (∀ s, s ≠ "" → env.state_dir s = Option.none →
      run_state_tests env (some s) = Except.ok (RunStateReturn.report s [])) ∧
    (∀ s r, s ≠ "" → run_state_tests env (some s) = Except.ok r →
      ∃ results, r = RunStateReturn.report s results) := by
  refine ⟨rfl, rfl, ?_, ?_⟩
  · intro s hs hdir
    simp only [run_state_tests]
    rw [if_neg hs, hdir]
  · intro s r hs h
    simp only [run_state_tests] at h
    rw [if_neg hs] at h
    split at h
    · split at h
      · simp at h
      · exact ⟨_, (Except.ok.inj h).symm⟩
    · exact ⟨[], (Except.ok.inj h).symm⟩

/-- Witness for the amended C10 theorem: a concrete environment with no
matching state directory yields the one-key report with an empty result
map. -/
theorem C10_run_state_tests_shape_witness :
    run_state_tests envEmpty (some "apache") =
      Except.ok (RunStateReturn.report "apache" []) :=
  (C10_run_state_tests_shape envEmpty).2.2.1 "apache" (by decide) rfl

end SaltCheckSpec
